import Mathlib

/-!
Shallow embedding of `src/get_invoices.py` (korner-scraper/pennylane_supplier_invoices).

The script fetches supplier invoices from a cursor-paginated REST API
(`request_with_retries`, `fetch_invoices_for_token`), enriches surviving rows with a
transaction date (`fetch_transaction_date_with_retries` plus the module-level enrichment
loop), filters and loads the result.

Modelling conventions:
* JSON values returned by `response.json()` are the inductive `Json`; Python `None` is
  `Json.null` (JSON `null` parses to Python `None`, and `dict.get` defaults to `None`,
  so the two coincide).
* The HTTP layer is an oracle `Nat → Except String Response`: the n-th `requests.get`
  call either raises (`Except.error`, modelling network exceptions such as
  `ConnectionError`) or returns a `Response` with a numeric status and an optional
  parsed body (`none` means `response.json()` raises a decode error).
* Python statements that raise uncaught exceptions (attribute access on non-dict JSON,
  iterating a non-list) are modelled as `Except.error`; `try`/`except` blocks are
  modelled by the places where such errors are converted back into values, exactly as
  in the source.
* Unbounded `while` loops are given a `fuel` parameter; returning `none` at fuel 0
  means the loop has not finished within `fuel` iterations, so a result that is `none`
  for every fuel models non-termination.
* Sleeps (`time.sleep`) are not observable in the claims about results and request
  traces and are not modelled as effects.
-/

namespace PennylaneInvoices

/-- JSON values as produced by `response.json()`; `null` doubles as Python `None`. -/
inductive Json where
  | null : Json
  | bool : Bool → Json
  | num : Int → Json
  | str : String → Json
  | arr : List Json → Json
  | obj : List (String × Json) → Json

/-- Python truthiness (`if x:`) for the JSON values the script tests. -/
def Json.truthy : Json → Bool
  | Json.null => false
  | Json.bool b => b
  | Json.num n => n != 0
  | Json.str s => s != ""
  | Json.arr xs => !xs.isEmpty
  | Json.obj fs => !fs.isEmpty

/-- Python `x is None` / `pd.isna(x)` on a JSON value. -/
def Json.isNull : Json → Bool
  | Json.null => true
  | _ => false

/-- Python `isinstance(x, str)`. -/
def Json.isStr : Json → Bool
  | Json.str _ => true
  | _ => false

/-- Python `s.strip()` on the character list of a string: drop leading and
trailing whitespace. -/
def stripChars (cs : List Char) : List Char :=
  ((cs.dropWhile Char.isWhitespace).reverse.dropWhile Char.isWhitespace).reverse

/-- Python `not x.strip()` for a string value: true when `x` is a string whose
whitespace-stripped form is empty (false on non-strings; in the source the
`isinstance` check short-circuits before `.strip()` runs on a non-string). -/
def Json.stripBlank : Json → Bool
  | Json.str s => (stripChars s.toList).isEmpty
  | _ => false

/-- Python `x == True` on a cell value: Python booleans compare equal to the
numbers 1/0, so `1 == True` holds; no other JSON value equals `True`. -/
def pyEqTrue : Json → Bool
  | Json.bool b => b
  | Json.num n => n == 1
  | _ => false

/-- Python `x == s` against a string literal: only an equal string matches. -/
def pyEqStr (x : Json) (s : String) : Bool :=
  match x with
  | Json.str t => t == s
  | _ => false

/-- `d.get(key)` on a parsed JSON object field list: first binding, default `None`. -/
def fieldD (fields : List (String × Json)) (key : String) : Json :=
  (fields.lookup key).getD Json.null

/-- `j.get(key)` where `j` may not be a dict: Python raises `AttributeError` then. -/
def objGet (j : Json) (key : String) : Except String Json :=
  match j with
  | Json.obj f => Except.ok (fieldD f key)
  | _ => Except.error "AttributeError"

/-- One normalized invoice row, as appended by `fetch_invoices_for_token`
(`rows.append` block, lines 95-107). `amount` is a `List Json` because the
source writes `amount = invoice.get("amount"),` — a one-element tuple. -/
structure Row where
  tag : String
  amount : List Json
  invoice_date : Json
  echeance : Json
  label : Json
  payment_status : Json
  updated_at : Json
  reconciled : Json
  accounting_status : Json
  fournisseur_id : Json
  matching_transaction : Json

/-- The record appended by `rows.append` (lines 95-107), given the already
computed `fournisseur_id` and `transaction` values. -/
def mkRow (tag : String) (f : List (String × Json)) (fid tr : Json) : Row :=
  { tag := tag
    amount := [fieldD f "amount"]
    invoice_date := fieldD f "date"
    echeance := fieldD f "deadline"
    label := fieldD f "label"
    payment_status := fieldD f "payment_status"
    updated_at := fieldD f "updated_at"
    reconciled := fieldD f "reconciled"
    accounting_status := fieldD f "accounting_status"
    fournisseur_id := fid
    matching_transaction := tr }

/-- The per-item body of the `for invoice in data.get("items", [])` loop
(lines 75-107): field extraction with `dict.get` defaults, the `supplier` and
`matched_transactions` sub-objects read only when truthy (a truthy non-dict
raises `AttributeError`, uncaught in the source). -/
def invoiceToRow (tag : String) (invoice : Json) : Except String Row := do
  let f ← match invoice with
    | Json.obj f => pure f
    | _ => Except.error "AttributeError"
  let fournisseur := fieldD f "supplier"
  let fournisseur_id ← if fournisseur.truthy then objGet fournisseur "id" else pure Json.null
  let matched := fieldD f "matched_transactions"
  let transaction ← if matched.truthy then objGet matched "url" else pure Json.null
  pure (mkRow tag f fournisseur_id transaction)

/-- What one `requests.get` call yields when it does not raise: an HTTP status and
the parsed body (`none` when `response.json()` would raise a decode error). -/
structure Response where
  status : Nat
  body : Option Json

/-- `request_with_retries` (lines 27-42), with the HTTP layer as an oracle indexed
by a global call counter `k`. The loop `while retries < max_retries` is run with
`fuel` standing for `max_retries - retries` (the source increments `retries` only
on 429). Returns the response on 200, `none` ("no result") on any other non-429
status or on retry exhaustion, together with the updated call counter. A raised
transport exception propagates: there is no `try` in the source. -/
def requestWithRetriesGo (oracle : Nat → Except String Response) :
    Nat → Nat → Except String (Option Response × Nat)
  | k, 0 => Except.ok (none, k)
  | k, fuel + 1 =>
    match oracle k with
    | Except.error e => Except.error e
    | Except.ok r =>
      if r.status = 200 then Except.ok (some r, k + 1)
      else if r.status = 429 then requestWithRetriesGo oracle (k + 1) fuel
      else Except.ok (none, k + 1)

/-- `request_with_retries` at its default `max_retries=5`, starting at call `k`. -/
def requestWithRetries (oracle : Nat → Except String Response) (k : Nat) :
    Except String (Option Response × Nat) :=
  requestWithRetriesGo oracle k 5

/-- The mutable state of the `while has_more:` loop of `fetch_invoices_for_token`
(lines 53-110): `rows`, the `cursor` variable, the `has_more` variable (any JSON
value, tested for truthiness), the `cursor` entry of the `params` dict (which is
only ever assigned, never deleted), the global HTTP call counter `k`, and a
`trace` recording, for each page request issued, the cursor parameter it carried
(`none` means the `params` dict has no `cursor` key). -/
structure FetchState where
  rows : List Row
  cursor : Json
  hasMore : Json
  paramsCursor : Option Json
  k : Nat
  trace : List (Option Json)

/-- State before the first iteration: `rows = []`, `cursor = None`,
`has_more = True`, `params = {"filter": ...}` without a cursor key. -/
def initialFetchState : FetchState :=
  { rows := [], cursor := Json.null, hasMore := Json.bool true
    paramsCursor := none, k := 0, trace := [] }

/-- The `while has_more:` loop of `fetch_invoices_for_token` (lines 57-110), with
`fuel` bounding the number of iterations; `none` means the loop has not finished.
Each iteration: set `params["cursor"]` when `cursor` is truthy, call
`request_with_retries`, break (returning rows so far) on "no result" or on a JSON
decode failure; raise `AttributeError` when the decoded body is not a dict
(`data.get` outside the `try`), break when `items` is `None`, raise `TypeError`
when `items` is a non-list (the `for` statement), build rows from the items, then
take `has_more` (default `False`) and `next_cursor` (default `None`) from the
body. -/
def fetchInvoicesGo (oracle : Nat → Except String Response) (tag : String) :
    Nat → FetchState → Option (Except String FetchState)
  | 0, st => if st.hasMore.truthy then none else some (Except.ok st)
  | fuel + 1, st =>
    if st.hasMore.truthy then
      let pc := if st.cursor.truthy then some st.cursor else st.paramsCursor
      let st1 : FetchState :=
        { st with paramsCursor := pc, trace := st.trace ++ [pc] }
      match requestWithRetries oracle st.k with
      | Except.error e => some (Except.error e)
      | Except.ok (none, k2) => some (Except.ok { st1 with k := k2 })
      | Except.ok (some r, k2) =>
        match r.body with
        | none => some (Except.ok { st1 with k := k2 })
        | some data =>
          match data with
          | Json.obj f =>
            let items := fieldD f "items"
            if items.isNull then some (Except.ok { st1 with k := k2 })
            else
              match items with
              | Json.arr xs =>
                match xs.mapM (invoiceToRow tag) with
                | Except.error e => some (Except.error e)
                | Except.ok newRows =>
                  fetchInvoicesGo oracle tag fuel
                    { st1 with
                        k := k2
                        rows := st1.rows ++ newRows
                        hasMore := (f.lookup "has_more").getD (Json.bool false)
                        cursor := fieldD f "next_cursor" }
              | _ => some (Except.error "TypeError")
          | _ => some (Except.error "AttributeError")
    else some (Except.ok st)

/-- `fetch_invoices_for_token` (lines 46-112) from the initial state. -/
def fetchInvoicesForToken (oracle : Nat → Except String Response) (tag : String)
    (fuel : Nat) : Option (Except String FetchState) :=
  fetchInvoicesGo oracle tag fuel initialFetchState

/-- The 200-branch of `fetch_transaction_date_with_retries` (lines 120-122):
`items = response.json().get("items", [])`, then `items[0].get("date") if items
else None`. Every exception on this path (decode failure, non-dict body,
non-dict first item) is caught by the surrounding `except: return None`, so all
of those collapse to `None` = `Json.null`; a non-list truthy `items` would index
like a sequence or raise, also caught, also `None`. -/
def dateFromBody : Option Json → Json
  | some (Json.obj f) =>
    match fieldD f "items" with
    | Json.arr (Json.obj g :: _) => fieldD g "date"
    | _ => Json.null
  | _ => Json.null

/-- `fetch_transaction_date_with_retries` (lines 115-134). The source initializes
`retries = 0` and loops `while retries < max_retries`, but never increments
`retries`: on 429 and on 5xx it only sleeps and loops. The model keeps `retries`
as a parameter that the recursive calls pass through UNCHANGED, exactly as the
source does; `fuel` bounds the number of iterations, `none` meaning the loop has
not finished within `fuel` iterations. A transport exception is caught by the
`try` and yields `None`. -/
def fetchTransactionDateGo (oracle : Nat → Except String Response)
    (maxRetries : Nat) : Nat → Nat → Nat → Option Json
  | 0, _, retries => if retries < maxRetries then none else some Json.null
  | fuel + 1, k, retries =>
    if retries < maxRetries then
      match oracle k with
      | Except.error _ => some Json.null
      | Except.ok r =>
        if r.status = 200 then some (dateFromBody r.body)
        else if r.status = 429 then
          fetchTransactionDateGo oracle maxRetries fuel (k + 1) retries
        else if 500 ≤ r.status ∧ r.status < 600 then
          fetchTransactionDateGo oracle maxRetries fuel (k + 1) retries
        else some Json.null
    else some Json.null

/-- The filter predicate of line 157:
`df[(df['reconciled'] == True) & (df['accounting_status'] != 'archived')]`. -/
def keepRow (r : Row) : Bool :=
  pyEqTrue r.reconciled && !pyEqStr r.accounting_status "archived"

/-- The skip condition of the enrichment loop (line 166):
`if not url or pd.isna(url) or not isinstance(url, str) or not url.strip():`. -/
def enrichSkip (r : Row) : Bool :=
  let url := r.matching_transaction
  !url.truthy || url.isNull || !url.isStr || url.stripBlank

/-- The enrichment loop (lines 160-182) over the filtered rows, in order. The
result of the n-th `fetch_transaction_date_with_retries` network call is
abstracted as `dateOf n` (its actual computation is `fetchTransactionDateGo`,
which on persistent 429/5xx never returns at all); the returned `Nat` is the
total number of network calls made, so a row whose step leaves the counter
unchanged made no network call. A row is skipped with date `None` when
`enrichSkip` holds or when `tokens.get(tag)` is falsy (`None` or an empty
token string: `if not token:`). -/
def enrichGo (tokens : List (String × String)) (dateOf : Nat → Json) :
    List Row → Nat → List Json × Nat
  | [], n => ([], n)
  | r :: rs, n =>
    if enrichSkip r then
      let rest := enrichGo tokens dateOf rs n
      (Json.null :: rest.1, rest.2)
    else
      match tokens.lookup r.tag with
      | none =>
        let rest := enrichGo tokens dateOf rs n
        (Json.null :: rest.1, rest.2)
      | some t =>
        if t = "" then
          let rest := enrichGo tokens dateOf rs n
          (Json.null :: rest.1, rest.2)
        else
          let rest := enrichGo tokens dateOf rs (n + 1)
          (dateOf n :: rest.1, rest.2)

/-- Lines 156-186: `pd.DataFrame(all_rows)`, the reconciled/archived filter, the
sequential enrichment loop, `df["transaction_date"] = transaction_dates`, and
the `notna` filter. A DataFrame built from an empty record list has no columns,
so `df['reconciled']` raises `KeyError` and the run dies before enrichment and
before `pandas_gbq.to_gbq`; from a nonempty list of these uniform records every
column exists. The `Except.ok` value is the Final Dataset handed to the load
stage: each surviving row paired with its non-null transaction date. -/
def pipeline (tokens : List (String × String)) (dateOf : Nat → Json)
    (all_rows : List Row) : Except String (List (Row × Json)) :=
  if all_rows.isEmpty then Except.error "KeyError reconciled"
  else
    let df := all_rows.filter keepRow
    let dates := (enrichGo tokens dateOf df 0).1
    Except.ok ((df.zip dates).filter (fun p => !p.2.isNull))

/-! ### Scenario oracles and concrete inputs used in the theorems below -/

/-- An HTTP layer that answers every call with status 429 (rate limited). -/
def always429 : Nat → Except String Response :=
  fun _ => Except.ok { status := 429, body := none }

/-- An HTTP layer whose every call raises a transport exception
(for instance `requests.exceptions.ConnectionError`). -/
def raisingOracle : Nat → Except String Response :=
  fun _ => Except.error "ConnectionError"

/-- An HTTP layer that answers every call with a plain 404 and an undecodable
body: no call raises. -/
def oracle404 : Nat → Except String Response :=
  fun _ => Except.ok { status := 404, body := some (Json.obj []) }

/-- A listing-page response body with an `items` array, a `has_more` flag and a
`next_cursor` value. -/
def pageBody (items : List Json) (hasMore : Json) (next : Json) : Json :=
  Json.obj [("items", Json.arr items), ("has_more", hasMore), ("next_cursor", next)]

/-- A final listing-page body: `has_more = false` and no `next_cursor` key at
all, so `data.get("next_cursor")` yields `None`. -/
def lastPageBody (items : List Json) : Json :=
  Json.obj [("items", Json.arr items), ("has_more", Json.bool false)]

/-- Listing endpoint returning three pages: `has_more = true, true, false` with
cursors `c1`, `c2` and none, carrying the given items. -/
def threePageOracle (c1 c2 : String) (i1 i2 i3 : List Json) :
    Nat → Except String Response
  | 0 => Except.ok { status := 200, body := some (pageBody i1 (Json.bool true) (Json.str c1)) }
  | 1 => Except.ok { status := 200, body := some (pageBody i2 (Json.bool true) (Json.str c2)) }
  | _ => Except.ok { status := 200, body := some (lastPageBody i3) }

/-- Listing endpoint whose first call succeeds (a page promising more data via
cursor `c1`) and whose every later call is rate limited with 429. -/
def oracle429AfterFirst (c1 : String) (i1 : List Json) :
    Nat → Except String Response
  | 0 => Except.ok { status := 200, body := some (pageBody i1 (Json.bool true) (Json.str c1)) }
  | _ + 1 => Except.ok { status := 429, body := none }

/-- Listing endpoint for the stale-cursor scenario: page 1 has `has_more = true`
and `next_cursor = c1`, page 2 has `has_more = true` but `next_cursor = null`,
page 3 ends the pagination. -/
def staleCursorOracle (c1 : String) : Nat → Except String Response
  | 0 => Except.ok { status := 200, body := some (pageBody [] (Json.bool true) (Json.str c1)) }
  | 1 => Except.ok { status := 200, body := some (pageBody [] (Json.bool true) Json.null) }
  | _ => Except.ok { status := 200, body := some (lastPageBody []) }

/-- The loop state reached in the stale-cursor scenario after two iterations:
page 2 reported `has_more = true` with `next_cursor = null`, so `cursor` is
falsy while `params` still carries the first page's cursor. -/
def stalePreState : FetchState :=
  { rows := [], cursor := Json.null, hasMore := Json.bool true
    paramsCursor := some (Json.str "A"), k := 2
    trace := [none, some (Json.str "A")] }

/-- The final state of the stale-cursor scenario: the third request re-sent the
stale cursor. -/
def staleFinState : FetchState :=
  { rows := [], cursor := Json.null, hasMore := Json.bool false
    paramsCursor := some (Json.str "A"), k := 3
    trace := [none, some (Json.str "A"), some (Json.str "A")] }

/-- The row produced from an invoice object with no fields at all. -/
def emptyInvoiceRow : Row :=
  { tag := "acme", amount := [Json.null], invoice_date := Json.null
    echeance := Json.null, label := Json.null, payment_status := Json.null
    updated_at := Json.null, reconciled := Json.null, accounting_status := Json.null
    fournisseur_id := Json.null, matching_transaction := Json.null }

/-- A reconciled, unarchived row with a usable transaction URL. -/
def goodRow : Row :=
  { emptyInvoiceRow with
      reconciled := Json.bool true
      matching_transaction := Json.str "https://app.pennylane.com/t/1" }

/-- One credential mapping for the concrete pipeline runs. -/
def demoTokens : List (String × String) := [("acme", "tok-1")]

/-- A transaction-date oracle answering every lookup with a fixed date. -/
def demoDates : Nat → Json := fun _ => Json.str "2025-02-03"

/-- Is this JSON value an object (a Python dict)? -/
def Json.isObj : Json → Bool
  | Json.obj _ => true
  | _ => false

/-- Well-shaped invoice item: a dict whose `supplier` and `matched_transactions`
fields are dicts whenever truthy, so the row-building loop raises nothing. -/
def invoiceOk (j : Json) : Bool :=
  match j with
  | Json.obj f =>
    (!(fieldD f "supplier").truthy || (fieldD f "supplier").isObj) &&
      (!(fieldD f "matched_transactions").truthy ||
        (fieldD f "matched_transactions").isObj)
  | _ => false

/-- Well-shaped response body: undecodable, or a dict whose `items` field is
absent/null or an array of well-shaped invoice items. -/
def bodyOk : Option Json → Bool
  | none => true
  | some (Json.obj f) =>
    match fieldD f "items" with
    | Json.null => true
    | Json.arr xs => xs.all invoiceOk
    | _ => false
  | some _ => false

/-- An HTTP layer that never raises a transport exception and returns only
well-shaped bodies. -/
def OracleOk (oracle : Nat → Except String Response) : Prop :=
  ∀ n, ∃ r, oracle n = Except.ok r ∧ bodyOk r.body = true

/-! ### Claims -/

/-- C1: the spec says the Transaction-Date Fetcher performs at most 5 attempts on
persistent 429/5xx responses, then returns null — in particular it terminates.
The code never increments `retries` inside
`fetch_transaction_date_with_retries`, so on a persistent 429 sequence the
`while retries < max_retries` loop never exits: for every iteration bound
`fuel`, the loop is still running (`none`), at every starting call index `k`. -/
theorem fetchTransactionDate_diverges_on_persistent_429 (fuel k : Nat) :
    fetchTransactionDateGo always429 5 fuel k 0 = none := by
  induction fuel generalizing k with
  | zero => simp [fetchTransactionDateGo]
  | succ n ih => simpa [fetchTransactionDateGo, always429] using ih (k + 1)

/-- C9: when every credential yields zero rows, `pd.DataFrame([])` has no
columns, so the `df['reconciled']` filter raises `KeyError` and the run fails
before enrichment and before any table write. -/
theorem empty_working_set_raises_before_load (tokens : List (String × String))
    (dateOf : Nat → Json) :
    pipeline tokens dateOf [] = Except.error "KeyError reconciled" := rfl

/-- C8: every produced Invoice Row's `amount` is the one-element tuple wrapping
the raw `amount` value of the invoice item (the source writes
`amount = invoice.get("amount"),` with a trailing comma); when the item has no
`amount` key the tuple wraps `None`. -/
theorem amount_is_one_element_tuple (tag : String) (fields : List (String × Json))
    (r : Row) (h : invoiceToRow tag (Json.obj fields) = Except.ok r) :
    r.amount = [fieldD fields "amount"] ∧
      (fields.lookup "amount" = none → r.amount = [Json.null]) := by
  simp only [invoiceToRow, Bind.bind, Except.bind, Pure.pure, Except.pure] at h
  have hr : r.amount = [fieldD fields "amount"] := by
    repeat' split at h
    all_goals cases h <;> rfl
  refine ⟨hr, fun hnone => ?_⟩
  rw [hr]
  simp [fieldD, hnone]

/-- Witness for `amount_is_one_element_tuple` at the field-less invoice object. -/
theorem amount_is_one_element_tuple_witness :
    emptyInvoiceRow.amount = [fieldD [] "amount"] ∧
      (List.lookup "amount" ([] : List (String × Json)) = none →
        emptyInvoiceRow.amount = [Json.null]) :=
  amount_is_one_element_tuple "acme" [] emptyInvoiceRow rfl

/-- C4: rows with `reconciled` not equal to `True` or `accounting_status` equal
to `"archived"` never reach the Final Dataset: every pair the pipeline hands to
the load stage has a row passing the line-157 filter, and that filter keeps
exactly the rows with `reconciled == True` and `accounting_status != "archived"`
(in Python equality, under which `1 == True`). -/
theorem filter_keeps_exactly_reconciled_unarchived
    (tokens : List (String × String)) (dateOf : Nat → Json)
    (all_rows : List Row) (out : List (Row × Json)) (r r' : Row) (d : Json)
    (hp : pipeline tokens dateOf all_rows = Except.ok out) (hm : (r, d) ∈ out) :
    (pyEqTrue r.reconciled = true ∧ pyEqStr r.accounting_status "archived" = false) ∧
      (r' ∈ all_rows.filter keepRow ↔ r' ∈ all_rows ∧ keepRow r' = true) := by
  refine ⟨?_, List.mem_filter⟩
  cases he : all_rows.isEmpty with
  | true => rw [pipeline, if_pos (by simp [he])] at hp; cases hp
  | false =>
    rw [pipeline, if_neg (by simp [he])] at hp
    cases hp
    rcases List.mem_filter.mp hm with ⟨hz, -⟩
    have hr := (List.of_mem_zip hz).1
    have hk := (List.mem_filter.mp hr).2
    simpa [keepRow, Bool.and_eq_true, Bool.not_eq_true'] using hk

/-- Witness for `filter_keeps_exactly_reconciled_unarchived` on a one-row run. -/
theorem filter_keeps_exactly_reconciled_unarchived_witness :
    (pyEqTrue goodRow.reconciled = true ∧
        pyEqStr goodRow.accounting_status "archived" = false) ∧
      (goodRow ∈ List.filter keepRow [goodRow] ↔
        goodRow ∈ [goodRow] ∧ keepRow goodRow = true) :=
  filter_keeps_exactly_reconciled_unarchived demoTokens demoDates [goodRow]
    [(goodRow, Json.str "2025-02-03")] goodRow goodRow (Json.str "2025-02-03")
    rfl (List.Mem.head _)

/-- C5: every pair in the Final Dataset handed to the load stage carries a
non-null `transaction_date`: rows still null after enrichment were removed by
the `notna` filter of line 186. -/
theorem final_dataset_transaction_date_nonnull
    (tokens : List (String × String)) (dateOf : Nat → Json)
    (all_rows : List Row) (out : List (Row × Json)) (r : Row) (d : Json)
    (hp : pipeline tokens dateOf all_rows = Except.ok out) (hm : (r, d) ∈ out) :
    d.isNull = false := by
  cases he : all_rows.isEmpty with
  | true => rw [pipeline, if_pos (by simp [he])] at hp; cases hp
  | false =>
    rw [pipeline, if_neg (by simp [he])] at hp
    cases hp
    rcases List.mem_filter.mp hm with ⟨-, hd⟩
    simpa [Bool.not_eq_true'] using hd

/-- Witness for `final_dataset_transaction_date_nonnull` on a one-row run. -/
theorem final_dataset_transaction_date_nonnull_witness :
    (Json.str "2025-02-03").isNull = false :=
  final_dataset_transaction_date_nonnull demoTokens demoDates [goodRow]
    [(goodRow, Json.str "2025-02-03")] goodRow (Json.str "2025-02-03")
    rfl (List.Mem.head _)

/-- C2 counterexample: a transport exception raised by `requests.get` escapes
both `request_with_retries` (which has no `try`) and
`fetch_invoices_for_token` (whose `try` covers only `response.json()`), so the
claim that no exception ever escapes these two functions is false. -/
theorem transport_exception_escapes :
    requestWithRetries raisingOracle 0 = Except.error "ConnectionError" ∧
      fetchInvoicesForToken raisingOracle "acme" 1 =
        some (Except.error "ConnectionError") :=
  ⟨rfl, rfl⟩

/-- A non-dict JSON value makes `objGet` fail, a dict makes it succeed. -/
theorem objGet_ok (j : Json) (key : String) (h : j.isObj = true) :
    ∃ v, objGet j key = Except.ok v := by
  cases j <;> simp [Json.isObj, objGet] at h ⊢

/-- A value satisfying `Json.isObj` is an object. -/
theorem isObj_exists (j : Json) (h : j.isObj = true) : ∃ g, j = Json.obj g := by
  cases j <;> first | exact ⟨_, rfl⟩ | simp [Json.isObj] at h

/-- Row extraction succeeds on every well-shaped invoice item. -/
theorem invoiceToRow_ok (tag : String) (j : Json) (h : invoiceOk j = true) :
    ∃ row, invoiceToRow tag j = Except.ok row := by
  cases j with
  | obj f =>
    simp only [invoiceOk, Bool.and_eq_true, Bool.or_eq_true, Bool.not_eq_true'] at h
    obtain ⟨hs, hm⟩ := h
    cases hst : (fieldD f "supplier").truthy with
    | false =>
      cases hmt : (fieldD f "matched_transactions").truthy with
      | false =>
        exact ⟨mkRow tag f Json.null Json.null,
          by simp [invoiceToRow, Bind.bind, Except.bind, Pure.pure, Except.pure, hst, hmt]⟩
      | true =>
        obtain ⟨g2, hg2⟩ := isObj_exists _ (hm.resolve_left (by simp [hmt]))
        have h2t : (Json.obj g2).truthy = true := hg2 ▸ hmt
        exact ⟨mkRow tag f Json.null (fieldD g2 "url"),
          by simp [invoiceToRow, Bind.bind, Except.bind, Pure.pure, Except.pure,
            hst, hmt, hg2, h2t, objGet]⟩
    | true =>
      obtain ⟨g1, hg1⟩ := isObj_exists _ (hs.resolve_left (by simp [hst]))
      have h1t : (Json.obj g1).truthy = true := hg1 ▸ hst
      cases hmt : (fieldD f "matched_transactions").truthy with
      | false =>
        exact ⟨mkRow tag f (fieldD g1 "id") Json.null,
          by simp [invoiceToRow, Bind.bind, Except.bind, Pure.pure, Except.pure,
            hst, hmt, hg1, h1t, objGet]⟩
      | true =>
        obtain ⟨g2, hg2⟩ := isObj_exists _ (hm.resolve_left (by simp [hmt]))
        have h2t : (Json.obj g2).truthy = true := hg2 ▸ hmt
        exact ⟨mkRow tag f (fieldD g1 "id") (fieldD g2 "url"),
          by simp [invoiceToRow, Bind.bind, Except.bind, Pure.pure, Except.pure,
            hst, hmt, hg1, hg2, h1t, h2t, objGet]⟩
  | null => simp [invoiceOk] at h
  | bool b => simp [invoiceOk] at h
  | num n => simp [invoiceOk] at h
  | str s => simp [invoiceOk] at h
  | arr xs => simp [invoiceOk] at h

/-- Row extraction succeeds along a whole list of well-shaped items. -/
theorem mapM_invoiceToRow_ok (tag : String) (xs : List Json)
    (h : xs.all invoiceOk = true) :
    ∃ rows, xs.mapM (invoiceToRow tag) = Except.ok rows := by
  induction xs with
  | nil => exact ⟨[], rfl⟩
  | cons x xs ih =>
    rw [List.all_cons, Bool.and_eq_true] at h
    obtain ⟨rowx, hx⟩ := invoiceToRow_ok tag x h.1
    obtain ⟨rows, hrows⟩ := ih h.2
    exact ⟨rowx :: rows,
      by rw [List.mapM_cons, hx, hrows]; rfl⟩

/-- Under a non-raising HTTP layer the Retry-GET primitive never raises, and
any response it does hand back is one of the layer's well-shaped responses. -/
theorem requestWithRetriesGo_no_raise (oracle : Nat → Except String Response)
    (hok : OracleOk oracle) (k fuel : Nat) :
    ∃ o k2, requestWithRetriesGo oracle k fuel = Except.ok (o, k2) ∧
      ∀ r, o = some r → bodyOk r.body = true := by
  induction fuel generalizing k with
  | zero => exact ⟨none, k, rfl, fun r hr => by cases hr⟩
  | succ n ih =>
    obtain ⟨resp, hresp, hbody⟩ := hok k
    by_cases h200 : resp.status = 200
    · refine ⟨some resp, k + 1, ?_, fun r hr => by cases hr; exact hbody⟩
      simp [requestWithRetriesGo, hresp, h200]
    · by_cases h429 : resp.status = 429
      · obtain ⟨o, k2, hih, hbo⟩ := ih (k + 1)
        refine ⟨o, k2, ?_, hbo⟩
        simp [requestWithRetriesGo, hresp, h200, h429, hih]
      · refine ⟨none, k + 1, ?_, fun r hr => by cases hr⟩
        simp [requestWithRetriesGo, hresp, h200, h429]

/-- Under a non-raising, well-shaped HTTP layer the pagination loop never
raises: for every fuel and state it either is still running or completes
normally. -/
theorem fetchInvoicesGo_no_raise (oracle : Nat → Except String Response)
    (tag : String) (hok : OracleOk oracle) :
    ∀ fuel st e, fetchInvoicesGo oracle tag fuel st ≠ some (Except.error e) := by
  intro fuel
  induction fuel with
  | zero =>
    intro st e
    cases hsm : st.hasMore.truthy <;> simp [fetchInvoicesGo, hsm]
  | succ n ih =>
    intro st e
    cases hsm : st.hasMore.truthy with
    | false => simp [fetchInvoicesGo, hsm]
    | true =>
      rw [fetchInvoicesGo, if_pos (by rw [hsm])]
      obtain ⟨o, k2, hreq, hbody⟩ := requestWithRetriesGo_no_raise oracle hok st.k 5
      rw [show requestWithRetries oracle st.k = Except.ok (o, k2) from hreq]
      cases o with
      | none => simp
      | some r =>
        have hb := hbody r rfl
        cases hrb : r.body with
        | none => simp [hrb]
        | some data =>
          rw [hrb] at hb
          simp only [hrb]
          cases data with
          | obj f =>
            simp only [bodyOk] at hb
            cases hit : fieldD f "items" with
            | null => simp [hit, Json.isNull]
            | arr xs =>
              simp only [hit] at hb
              obtain ⟨rows, hrows⟩ := mapM_invoiceToRow_ok tag xs hb
              simp only [hit, Json.isNull, Bool.false_eq_true, if_false, hrows]
              exact ih _ e
            | bool b => simp only [hit] at hb; cases hb
            | num m => simp only [hit] at hb; cases hb
            | str s => simp only [hit] at hb; cases hb
            | obj g => simp only [hit] at hb; cases hb
          | null => cases hb
          | bool b => cases hb
          | num m => cases hb
          | str s => cases hb
          | arr xs => cases hb

/-- C2 (amended): transport exceptions raised by `requests.get` (and shape
errors on non-dict bodies) do escape `request_with_retries` and
`fetch_invoices_for_token`; but for every behaviour of the HTTP layer in which
no call raises and every decodable body is well shaped, no exception escapes
either function: HTTP status failures and JSON decode failures all degrade to
the "no result" signal, respectively to returning the rows accumulated so
far. -/
theorem no_exception_escapes_on_wellshaped_http
    (oracle : Nat → Except String Response) (tag : String)
    (fuel k f : Nat) (e : String) (hok : OracleOk oracle) :
    requestWithRetriesGo oracle k f ≠ Except.error e ∧
      fetchInvoicesForToken oracle tag fuel ≠ some (Except.error e) := by
  obtain ⟨o, k2, hreq, -⟩ := requestWithRetriesGo_no_raise oracle hok k f
  refine ⟨?_, fetchInvoicesGo_no_raise oracle tag hok fuel initialFetchState e⟩
  rw [hreq]
  intro hc
  cases hc

/-- Witness for `no_exception_escapes_on_wellshaped_http` on the 404-only
layer. -/
theorem no_exception_escapes_on_wellshaped_http_witness :
    requestWithRetriesGo oracle404 0 5 ≠ Except.error "ConnectionError" ∧
      fetchInvoicesForToken oracle404 "acme" 2 ≠
        some (Except.error "ConnectionError") :=
  no_exception_escapes_on_wellshaped_http oracle404 "acme" 2 0 5 "ConnectionError"
    (fun _ => ⟨{ status := 404, body := some (Json.obj []) }, rfl, rfl⟩)

/-- C3: against a listing endpoint returning three pages with
`has_more = true, true, false` and cursors `c1`, `c2`, none, the fetcher issues
exactly 3 page requests whose cursor parameters are absent, `c1`, `c2` in that
order, and its rows are the concatenation of the three pages' item rows in page
order. -/
theorem three_page_pagination (tag c1 c2 : String) (h1 : c1 ≠ "") (h2 : c2 ≠ "")
    (i1 i2 i3 : List Json) (r1 r2 r3 : List Row)
    (m1 : i1.mapM (invoiceToRow tag) = Except.ok r1)
    (m2 : i2.mapM (invoiceToRow tag) = Except.ok r2)
    (m3 : i3.mapM (invoiceToRow tag) = Except.ok r3) :
    fetchInvoicesForToken (threePageOracle c1 c2 i1 i2 i3) tag 3 =
      some (Except.ok
        { rows := r1 ++ r2 ++ r3, cursor := Json.null, hasMore := Json.bool false
          paramsCursor := some (Json.str c2), k := 3
          trace := [none, some (Json.str c1), some (Json.str c2)] }) := by
  have hc1 : (Json.str c1).truthy = true := by simp [Json.truthy, h1]
  have hc2 : (Json.str c2).truthy = true := by simp [Json.truthy, h2]
  simp only [List.mapM] at m1 m2 m3
  simp [fetchInvoicesForToken, fetchInvoicesGo, requestWithRetries,
    requestWithRetriesGo, threePageOracle, pageBody, lastPageBody,
    initialFetchState, fieldD, List.lookup, Option.getD, Json.truthy,
    Json.isNull, hc1, hc2, m1, m2, m3]
  exact ⟨fun hc => absurd hc h2, h1, fun hc => absurd hc h2⟩

/-- Witness for `three_page_pagination` with concrete cursors and empty pages. -/
theorem three_page_pagination_witness :
    fetchInvoicesForToken (threePageOracle "A" "B" [] [] []) "t" 3 =
      some (Except.ok
        { rows := ([] : List Row) ++ [] ++ [], cursor := Json.null
          hasMore := Json.bool false, paramsCursor := some (Json.str "B"), k := 3
          trace := [none, some (Json.str "A"), some (Json.str "B")] }) :=
  three_page_pagination "t" "A" "B" (by decide) (by decide) [] [] [] [] [] []
    rfl rfl rfl

/-- C6: with the default attempt cap of 5, five consecutive 429 responses make
`request_with_retries` return "no result" after its 5 attempts (HTTP calls 1-5),
and the fetcher then stops paginating, returning exactly the rows accumulated
from the first page, unchanged. -/
theorem persistent_429_returns_accumulated_rows (tag c1 : String) (h1 : c1 ≠ "")
    (i1 : List Json) (r1 : List Row)
    (m1 : i1.mapM (invoiceToRow tag) = Except.ok r1) :
    requestWithRetriesGo (oracle429AfterFirst c1 i1) 1 5 = Except.ok (none, 6) ∧
      fetchInvoicesForToken (oracle429AfterFirst c1 i1) tag 2 =
        some (Except.ok
          { rows := r1, cursor := Json.str c1, hasMore := Json.bool true
            paramsCursor := some (Json.str c1), k := 6
            trace := [none, some (Json.str c1)] }) := by
  have hc1 : (Json.str c1).truthy = true := by simp [Json.truthy, h1]
  simp only [List.mapM] at m1
  refine ⟨rfl, ?_⟩
  simp [fetchInvoicesForToken, fetchInvoicesGo, requestWithRetries,
    requestWithRetriesGo, oracle429AfterFirst, pageBody, initialFetchState,
    fieldD, List.lookup, Option.getD, Json.truthy, Json.isNull, hc1, m1, h1]

/-- Witness for `persistent_429_returns_accumulated_rows` at an empty first
page. -/
theorem persistent_429_returns_accumulated_rows_witness :
    requestWithRetriesGo (oracle429AfterFirst "A" []) 1 5 = Except.ok (none, 6) ∧
      fetchInvoicesForToken (oracle429AfterFirst "A" []) "t" 2 =
        some (Except.ok
          { rows := [], cursor := Json.str "A", hasMore := Json.bool true
            paramsCursor := some (Json.str "A"), k := 6
            trace := [none, some (Json.str "A")] }) :=
  persistent_429_returns_accumulated_rows "t" "A" (by decide) [] [] rfl

/-- One loop iteration of `fetch_invoices_for_token`, inverted: when the state
has `has_more` truthy and the run completes normally, the iteration appended to
the trace exactly one request entry — `some cursor` when the `cursor` variable
is truthy, otherwise the UNCHANGED previous `params` cursor — set
`paramsCursor` to that same value, and either broke there or continued with
some new rows, `has_more` and `cursor` taken from the response body. -/
theorem fetchInvoicesGo_succ_inv (oracle : Nat → Except String Response)
    (tag : String) (n : Nat) (st st' : FetchState)
    (hsm : st.hasMore.truthy = true)
    (h : fetchInvoicesGo oracle tag (n + 1) st = some (Except.ok st')) :
    ∃ k2,
      st' = { st with
          paramsCursor := if st.cursor.truthy then some st.cursor else st.paramsCursor
          trace := st.trace ++ [if st.cursor.truthy then some st.cursor else st.paramsCursor]
          k := k2 } ∨
      ∃ newRows hm2 cur2,
        fetchInvoicesGo oracle tag n
          { rows := st.rows ++ newRows, cursor := cur2, hasMore := hm2
            paramsCursor := if st.cursor.truthy then some st.cursor else st.paramsCursor
            k := k2
            trace := st.trace ++
              [if st.cursor.truthy then some st.cursor else st.paramsCursor] } =
          some (Except.ok st') := by
  rw [fetchInvoicesGo, if_pos hsm] at h
  rcases hreq : requestWithRetries oracle st.k with e | ⟨o, k2⟩
  · simp [hreq] at h
  · cases o with
    | none =>
      simp only [hreq, Option.some.injEq, Except.ok.injEq] at h
      exact ⟨k2, Or.inl h.symm⟩
    | some r =>
      simp only [hreq] at h
      cases hrb : r.body with
      | none =>
        simp only [hrb, Option.some.injEq, Except.ok.injEq] at h
        exact ⟨k2, Or.inl h.symm⟩
      | some data =>
        simp only [hrb] at h
        cases data with
        | obj f =>
          cases hni : (fieldD f "items").isNull with
          | true =>
            simp only [hni, if_true, Option.some.injEq, Except.ok.injEq] at h
            exact ⟨k2, Or.inl h.symm⟩
          | false =>
            cases hit : fieldD f "items" with
            | null => rw [hit] at hni; cases hni
            | arr xs =>
              rcases hmap : xs.mapM (invoiceToRow tag) with e | newRows
              · simp only [hit, Json.isNull, Bool.false_eq_true, if_false, hmap] at h
                simp at h
              · simp only [hit, Json.isNull, Bool.false_eq_true, if_false, hmap] at h
                exact ⟨k2, Or.inr ⟨newRows, _, _, h⟩⟩
            | bool b => simp [hit, Json.isNull] at h
            | num m => simp [hit, Json.isNull] at h
            | str s => simp [hit, Json.isNull] at h
            | obj g => simp [hit, Json.isNull] at h
        | null => simp at h
        | bool b => simp at h
        | num m => simp at h
        | str s => simp at h
        | arr xs => simp at h

/-- A normally completing pagination run only ever appends to the request
trace. -/
theorem fetchInvoicesGo_trace_extends (oracle : Nat → Except String Response)
    (tag : String) :
    ∀ fuel st st', fetchInvoicesGo oracle tag fuel st = some (Except.ok st') →
      ∃ ext, st'.trace = st.trace ++ ext := by
  intro fuel
  induction fuel with
  | zero =>
    intro st st' h
    rw [fetchInvoicesGo] at h
    cases hsm : st.hasMore.truthy with
    | true => simp [hsm] at h
    | false =>
      simp only [hsm, Bool.false_eq_true, if_false, Option.some.injEq,
        Except.ok.injEq] at h
      exact ⟨[], by rw [← h]; simp⟩
  | succ n ih =>
    intro st st' h
    cases hsm : st.hasMore.truthy with
    | false =>
      rw [fetchInvoicesGo, if_neg (by simp [hsm])] at h
      simp only [Option.some.injEq, Except.ok.injEq] at h
      exact ⟨[], by rw [← h]; simp⟩
    | true =>
      obtain ⟨k2, hcase⟩ := fetchInvoicesGo_succ_inv oracle tag n st st' hsm h
      rcases hcase with heq | ⟨newRows, hm2, cur2, hrec⟩
      · exact ⟨[if st.cursor.truthy then some st.cursor else st.paramsCursor],
          by rw [heq]⟩
      · obtain ⟨ext, hext⟩ := ih _ _ hrec
        refine ⟨(if st.cursor.truthy then some st.cursor else st.paramsCursor) :: ext, ?_⟩
        rw [hext]
        simp

/-- Along a normally completing run, the request trace stays a chain in which a
request carrying a cursor is never followed by one without, and the last trace
entry always equals the current `params` cursor (it is assigned, never
cleared). -/
theorem fetchInvoicesGo_trace_chain (oracle : Nat → Except String Response)
    (tag : String) :
    ∀ fuel st st', fetchInvoicesGo oracle tag fuel st = some (Except.ok st') →
      List.Chain' (fun p q : Option Json => p.isSome = true → q.isSome = true) st.trace →
      st.trace.getLast?.getD none = st.paramsCursor →
      List.Chain' (fun p q : Option Json => p.isSome = true → q.isSome = true) st'.trace ∧
        st'.trace.getLast?.getD none = st'.paramsCursor := by
  intro fuel
  induction fuel with
  | zero =>
    intro st st' h hch hlast
    rw [fetchInvoicesGo] at h
    cases hsm : st.hasMore.truthy with
    | true => simp [hsm] at h
    | false =>
      simp only [hsm, Bool.false_eq_true, if_false, Option.some.injEq,
        Except.ok.injEq] at h
      rw [← h]
      exact ⟨hch, hlast⟩
  | succ n ih =>
    intro st st' h hch hlast
    cases hsm : st.hasMore.truthy with
    | false =>
      rw [fetchInvoicesGo, if_neg (by simp [hsm])] at h
      simp only [Option.some.injEq, Except.ok.injEq] at h
      rw [← h]
      exact ⟨hch, hlast⟩
    | true =>
      obtain ⟨k2, hcase⟩ := fetchInvoicesGo_succ_inv oracle tag n st st' hsm h
      have hch1 : List.Chain'
          (fun p q : Option Json => p.isSome = true → q.isSome = true)
          (st.trace ++ [if st.cursor.truthy then some st.cursor else st.paramsCursor]) := by
        rw [List.chain'_append]
        refine ⟨hch, List.chain'_singleton _, ?_⟩
        intro x hx y hy hxs
        simp only [List.head?_cons, Option.mem_def, Option.some.injEq] at hy
        cases hc : st.cursor.truthy with
        | true => simp [← hy, hc]
        | false =>
          rw [← hy]
          simp only [hc, Bool.false_eq_true, if_false]
          have : st.trace.getLast?.getD none = x := by
            simp only [Option.mem_def] at hx
            rw [hx]
            rfl
          rw [← hlast, this]
          exact hxs
      have hlast1 : (st.trace ++
            [if st.cursor.truthy then some st.cursor else st.paramsCursor]).getLast?.getD none =
          (if st.cursor.truthy then some st.cursor else st.paramsCursor) := by
        rw [List.getLast?_concat]
        rfl
      rcases hcase with heq | ⟨newRows, hm2, cur2, hrec⟩
      · rw [heq]
        exact ⟨hch1, hlast1⟩
      · exact ih _ _ hrec hch1 hlast1

/-- In a trace satisfying the once-carrying-always-carrying chain, any entry at
or after a `some` entry is `some`. -/
theorem chain_mono_get (l : List (Option Json))
    (hch : List.Chain' (fun p q : Option Json => p.isSome = true → q.isSome = true) l)
    (i j : Nat) (p q : Option Json) (hij : i ≤ j)
    (hgi : l.get? i = some p) (hgj : l.get? j = some q) (hps : p.isSome = true) :
    q.isSome = true := by
  haveI : IsTrans (Option Json)
      (fun p q : Option Json => p.isSome = true → q.isSome = true) :=
    ⟨fun _ _ _ h1 h2 hx => h2 (h1 hx)⟩
  rw [List.chain'_iff_pairwise] at hch
  rcases Nat.lt_or_ge i j with hlt | hge
  · obtain ⟨hi, hgi'⟩ := List.get?_eq_some.mp hgi
    obtain ⟨hj, hgj'⟩ := List.get?_eq_some.mp hgj
    have hr := List.pairwise_iff_get.mp hch ⟨i, hi⟩ ⟨j, hj⟩ hlt
    rw [hgi', hgj'] at hr
    exact hr hps
  · have heq : i = j := Nat.le_antisymm hij hge
    subst heq
    rw [hgi, Option.some.injEq] at hgj
    rw [← hgj]
    exact hps

/-- C10: the stale-cursor invariant, over every HTTP-layer behaviour and every
pagination history. First, in any normally completing run from the initial
state, once some request has carried a cursor parameter, every subsequent
request carries one (the `params` entry is assigned, never deleted). Second,
for any loop state whose `cursor` variable is falsy — exactly the situation
after a response reporting `has_more` truthy with a null or missing
`next_cursor` — the next request (trace entry number `st.trace.length`) carries
the previously sent `params` cursor value unchanged, instead of omitting the
parameter. -/
theorem stale_cursor_never_cleared
    (oracle oracle2 : Nat → Except String Response) (tag tag2 : String)
    (fuel n i j : Nat) (stFin st stNext : FetchState) (p q : Option Json)
    (hrun : fetchInvoicesForToken oracle tag fuel = some (Except.ok stFin))
    (hij : i ≤ j)
    (hgi : stFin.trace.get? i = some p) (hgj : stFin.trace.get? j = some q)
    (hps : p.isSome = true)
    (hstep : fetchInvoicesGo oracle2 tag2 (n + 1) st = some (Except.ok stNext))
    (hsm : st.hasMore.truthy = true) (hcur : st.cursor.truthy = false) :
    q.isSome = true ∧ stNext.trace.get? st.trace.length = some st.paramsCursor := by
  constructor
  · have hrun' : fetchInvoicesGo oracle tag fuel initialFetchState =
        some (Except.ok stFin) := hrun
    have hch := (fetchInvoicesGo_trace_chain oracle tag fuel initialFetchState
      stFin hrun' List.chain'_nil (by rfl)).1
    exact chain_mono_get stFin.trace hch i j p q hij hgi hgj hps
  · obtain ⟨k2, hcase⟩ := fetchInvoicesGo_succ_inv oracle2 tag2 n st stNext hsm hstep
    simp only [hcur, Bool.false_eq_true, if_false] at hcase
    rcases hcase with heq | ⟨newRows, hm2, cur2, hrec⟩
    · rw [heq]
      rw [List.get?_eq_getElem?]
      exact List.getElem?_concat_length st.trace st.paramsCursor
    · obtain ⟨ext, hext⟩ := fetchInvoicesGo_trace_extends oracle2 tag2 n _ stNext hrec
      rw [hext]
      simp only [List.append_assoc, List.singleton_append]
      rw [List.get?_eq_getElem?, List.getElem?_append_right (Nat.le_refl _)]
      simp

/-- Witness for `stale_cursor_never_cleared`: the stale-cursor three-page run,
taking the full run for the chain part and its third iteration for the
stale-resend part. -/
theorem stale_cursor_never_cleared_witness :
    (some (Json.str "A") : Option Json).isSome = true ∧
      staleFinState.trace.get? stalePreState.trace.length =
        some stalePreState.paramsCursor :=
  stale_cursor_never_cleared (staleCursorOracle "A") (staleCursorOracle "A")
    "t" "t" 3 0 1 2 staleFinState stalePreState staleFinState
    (some (Json.str "A")) (some (Json.str "A"))
    rfl (by decide) rfl rfl rfl rfl rfl rfl
